import Mathlib

/-
Verification development for the education-pad donation-matching application.

The database schema, row-level-security policies and trigger functions are
embedded from `supabase/migrations/20251107141702_remix_batch_9_migrations.sql`
(tables `profiles`, `institutions`, `investors`, `conversations`, `messages`,
`donations`, `user_roles`; the `has_role` function is the later override from
migration `20251110121000_update_has_role_include_profiles.sql`).
UUID columns are embedded as `Nat`, `text` columns as `String`,
`numeric` as `Rat`, timestamps as `Nat`.  SQL `EXISTS` subqueries become
`List.any` over the embedded tables, so every policy is an executable
`Bool`-valued function of the database state and the caller id (`auth.uid()`).

Client-side handlers (`Messages`, `InstitutionsList`, `InstitutionAnalytics`,
`InstitutionReports`) are embedded as pure functions of their inputs and of the
single backend response they consume.
-/

/-- Row of `public.profiles`: `id` references `auth.users`, `user_type` is
checked against (institution, investor, admin) and `verification_status`
against (pending, verified, rejected), defaulting to pending. -/
structure Profile where
  id : Nat
  email : String
  user_type : String
  verification_status : String
deriving Repr, DecidableEq

/-- Row of `public.institutions`: `user_id` references `profiles(id)` and is
unique. -/
structure Institution where
  id : Nat
  user_id : Nat
deriving Repr, DecidableEq

/-- Row of `public.investors`: `user_id` references `profiles(id)` and is
unique. -/
structure Investor where
  id : Nat
  user_id : Nat
deriving Repr, DecidableEq

/-- Row of `public.conversations`: non-null foreign keys `institution_id`
and `investor_id`, with `UNIQUE(institution_id, investor_id)`. -/
structure Conversation where
  id : Nat
  institution_id : Nat
  investor_id : Nat
  created_at : Nat
  updated_at : Nat
deriving Repr, DecidableEq

/-- Row of `public.messages`. -/
structure Message where
  id : Nat
  conversation_id : Nat
  sender_id : Nat
  content : String
  read : Bool
  created_at : Nat
deriving Repr, DecidableEq

/-- Row of `public.donations`: `amount numeric NOT NULL CHECK (amount > 0)`,
`status` checked against (pending, completed, cancelled, failed). -/
structure Donation where
  id : Nat
  investor_id : Nat
  institution_id : Nat
  amount : Rat
  currency : String
  status : String
deriving Repr, DecidableEq

/-- Row of `public.user_roles` (`UNIQUE (user_id, role)`). -/
structure UserRole where
  user_id : Nat
  role : String
deriving Repr, DecidableEq

/-- The database state: one list per table created by the migrations. -/
structure DB where
  profiles : List Profile
  institutions : List Institution
  investors : List Investor
  conversations : List Conversation
  messages : List Message
  donations : List Donation
  user_roles : List UserRole
deriving Repr, DecidableEq

/-- `public.has_role(_user_id, _role)` as redefined by migration
20251110121000: true when a `user_roles` row matches, or when the caller's
`profiles.user_type` equals the role. -/
def has_role (db : DB) (uid : Nat) (r : String) : Bool :=
  db.user_roles.any (fun ur => ur.user_id == uid && ur.role == r)
    || db.profiles.any (fun p => p.id == uid && p.user_type == r)

/-- CHECK constraints on `profiles` (`user_type IN (...)`,
`verification_status IN (...)`). -/
def profile_row_ok (p : Profile) : Bool :=
  (p.user_type == "institution" || p.user_type == "investor"
      || p.user_type == "admin")
    && (p.verification_status == "pending"
      || p.verification_status == "verified"
      || p.verification_status == "rejected")

/-- CHECK constraints on `donations`: `amount > 0` and
`status IN ('pending','completed','cancelled','failed')`. -/
def donation_checks (d : Donation) : Bool :=
  decide (0 < d.amount)
    && (d.status == "pending" || d.status == "completed"
      || d.status == "cancelled" || d.status == "failed")

/-- Foreign-key check: some `profiles` row has this id. -/
def profile_exists (db : DB) (x : Nat) : Bool :=
  db.profiles.any (fun p => p.id == x)

/-- Foreign-key check: some `institutions` row has this id. -/
def institution_exists (db : DB) (x : Nat) : Bool :=
  db.institutions.any (fun i => i.id == x)

/-- Foreign-key check: some `investors` row has this id. -/
def investor_exists (db : DB) (x : Nat) : Bool :=
  db.investors.any (fun i => i.id == x)

/-- Foreign-key check: some `conversations` row has this id. -/
def conversation_exists (db : DB) (x : Nat) : Bool :=
  db.conversations.any (fun c => c.id == x)

/-- `UNIQUE(institution_id, investor_id)` pre-check: no existing conversation
already pairs this institution and investor. -/
def conv_pair_free (db : DB) (inst_id inv_id : Nat) : Bool :=
  !(db.conversations.any
      (fun c => c.institution_id == inst_id && c.investor_id == inv_id))

/-- Combined UPDATE policies on `profiles`: "Users can update their own
profile" (`USING auth.uid() = id`) OR "Admins can update all profiles"
(`USING has_role(auth.uid(), 'admin')`).  Permissive RLS policies are
disjoined; neither restricts which columns the update may change. -/
def profiles_update_policy (db : DB) (uid : Nat) (row : Profile) : Bool :=
  (uid == row.id) || has_role db uid "admin"

/-- `public.is_institution_in_conversation(conv_id)`: the caller is the
verified owning profile of the institution side of the conversation. -/
def is_institution_in_conversation (db : DB) (uid : Nat) (conv_id : Nat) : Bool :=
  db.conversations.any (fun c =>
    c.id == conv_id
      && db.institutions.any (fun i =>
        c.institution_id == i.id
          && db.profiles.any (fun p =>
            i.user_id == p.id && p.id == uid
              && p.verification_status == "verified")))

/-- `public.is_investor_in_conversation(conv_id)`: the caller is the verified
owning profile of the investor side of the conversation. -/
def is_investor_in_conversation (db : DB) (uid : Nat) (conv_id : Nat) : Bool :=
  db.conversations.any (fun c =>
    c.id == conv_id
      && db.investors.any (fun inv =>
        c.investor_id == inv.id
          && db.profiles.any (fun p =>
            inv.user_id == p.id && p.id == uid
              && p.verification_status == "verified")))

/-- SELECT policy "Verified users can view their conversations". -/
def conversations_select_policy (db : DB) (uid : Nat) (c : Conversation) : Bool :=
  is_institution_in_conversation db uid c.id
    || is_investor_in_conversation db uid c.id

/-- The WITH CHECK clause of INSERT policy "Verified users can create
conversations", evaluated over the full unfiltered tables: both owning
profiles are verified and the caller is one of them.  This is the clause's
intended reading and an upper bound on what the program grants:
`conversations_insert_policy_rls` below additionally filters each
referenced table by the caller's own row visibility, as PostgreSQL does
when it evaluates a policy expression, and implies this clause
(`rls_policy_le_clause`).  The reachability model uses this upper bound as
its insert guard, which is conservative for the invariants proved below. -/
def conversations_insert_policy (db : DB) (uid inst_id inv_id : Nat) : Bool :=
  db.profiles.any (fun p1 =>
    db.institutions.any (fun i =>
      db.profiles.any (fun p2 =>
        db.investors.any (fun inv =>
          p1.id == i.user_id && p2.id == inv.user_id
            && i.id == inst_id && inv.id == inv_id
            && p1.verification_status == "verified"
            && p2.verification_status == "verified"
            && (p1.id == uid || p2.id == uid)))))

/-- Caller-visible rows of `profiles` under its SELECT policies ("Users can
view their own profile" OR "Admins can view all profiles"): a policy
expression runs with the privileges of the querying user, so tables it
references are filtered by their own row security for that user. -/
def profile_visible (db : DB) (uid : Nat) (p : Profile) : Bool :=
  (uid == p.id) || has_role db uid "admin"

/-- Caller-visible rows of `institutions` under its SELECT policies (own
row, "Verified investors can view institutions", or admin).  The nested
profiles subquery of the verified-investor policy only inspects the row
with `p.id = auth.uid()`, which the caller can always see, so scanning the
full profile list is equivalent there. -/
def institution_visible (db : DB) (uid : Nat) (i : Institution) : Bool :=
  (uid == i.user_id)
    || db.profiles.any (fun p =>
        p.id == uid && p.user_type == "investor"
          && p.verification_status == "verified")
    || has_role db uid "admin"

/-- Caller-visible rows of `investors` under its SELECT policies (own row,
"Verified institutions can view investors", or admin). -/
def investor_visible (db : DB) (uid : Nat) (inv : Investor) : Bool :=
  (uid == inv.user_id)
    || db.profiles.any (fun p =>
        p.id == uid && p.user_type == "institution"
          && p.verification_status == "verified")
    || has_role db uid "admin"

/-- The conversation INSERT policy as the program evaluates it: the WITH
CHECK expression runs with the caller's privileges, so each table of its
subquery is filtered by that table's SELECT policies for the caller.
Unlike the conversation read path, this policy calls no SECURITY DEFINER
function to bypass that filtering, so a non-admin caller sees only their
own `profiles` row here. -/
def conversations_insert_policy_rls (db : DB) (uid inst_id inv_id : Nat) : Bool :=
  (db.profiles.filter (profile_visible db uid)).any (fun p1 =>
    (db.institutions.filter (institution_visible db uid)).any (fun i =>
      (db.profiles.filter (profile_visible db uid)).any (fun p2 =>
        (db.investors.filter (investor_visible db uid)).any (fun inv =>
          p1.id == i.user_id && p2.id == inv.user_id
            && i.id == inst_id && inv.id == inv_id
            && p1.verification_status == "verified"
            && p2.verification_status == "verified"
            && (p1.id == uid || p2.id == uid)))))

/-- INSERT policy "Verified users can send messages in their conversations". -/
def messages_insert_policy (db : DB) (uid : Nat) (m : Message) : Bool :=
  (uid == m.sender_id)
    && (is_institution_in_conversation db uid m.conversation_id
      || is_investor_in_conversation db uid m.conversation_id)

/-- UPDATE policy "Users can update read status on messages". -/
def messages_update_policy (db : DB) (uid : Nat) (m : Message) : Bool :=
  is_institution_in_conversation db uid m.conversation_id
    || is_investor_in_conversation db uid m.conversation_id

/-- Combined INSERT policies on `donations`: "Admins can insert donations" OR
"Investors can create donations" (the caller owns the investor row). -/
def donations_insert_policy (db : DB) (uid : Nat) (d : Donation) : Bool :=
  has_role db uid "admin"
    || db.investors.any (fun inv => inv.id == d.investor_id && inv.user_id == uid)

/-- `public.update_conversation_timestamp()`: the AFTER INSERT trigger on
`messages` runs `UPDATE conversations SET updated_at = NOW() WHERE id =
NEW.conversation_id`. -/
def update_conversation_timestamp (convs : List Conversation)
    (conv_id now : Nat) : List Conversation :=
  convs.map (fun c =>
    if c.id = conv_id then { c with updated_at := now } else c)

/-- An INSERT into `conversations` as the program executes it: accepted only
when the INSERT policy under the caller's row visibility, the foreign keys,
the pair uniqueness constraint, and primary-key freshness all hold;
otherwise the statement is rejected and the state is unchanged. -/
def tryInsertConversation (db : DB) (uid : Nat) (c : Conversation) : Option DB :=
  if conversations_insert_policy_rls db uid c.institution_id c.investor_id
      && institution_exists db c.institution_id
      && investor_exists db c.investor_id
      && conv_pair_free db c.institution_id c.investor_id
      && db.conversations.all (fun r => r.id != c.id) then
    some { db with conversations := c :: db.conversations }
  else
    none

/-- An INSERT into `messages`: accepted only when the RLS insert policy and
the foreign keys hold; on success the AFTER INSERT trigger bumps the parent
conversation's `updated_at`. -/
def tryInsertMessage (db : DB) (uid : Nat) (m : Message) (now : Nat) : Option DB :=
  if messages_insert_policy db uid m
      && conversation_exists db m.conversation_id
      && profile_exists db m.sender_id
      && db.messages.all (fun r => r.id != m.id) then
    some { db with
            messages := m :: db.messages,
            conversations :=
              update_conversation_timestamp db.conversations m.conversation_id now }
  else
    none

/-- A toast notification as raised through `useToast`. -/
structure ToastMsg where
  title : String
  description : String
  variant : String
deriving Repr, DecidableEq

/-- The raw row shape returned by the `Messages.loadConversations` select:
`id, updated_at, institutions(id, institution_name, user_id),
investors(id, company_name, investor_type, user_id)`. -/
structure RawConv where
  id : Nat
  updated_at : Nat
  inst_id : Nat
  inst_name : String
  inst_user_id : Nat
  inv_id : Nat
  inv_company : Option String
  inv_type : String
  inv_user_id : Nat
deriving Repr, DecidableEq

/-- The object built by `Messages.loadConversations` for each conversation.
The source builds `\x7b id, other_party_name, other_party_type, updated_at,
is_online \x7d` only: it carries no `institution_id` or `investor_id`
property, so reading those properties yields `undefined`; absent properties
are embedded as `Option` fields equal to `none`. -/
structure FormattedConv where
  id : Nat
  other_party_name : String
  other_party_type : String
  updated_at : Nat
  is_online : Bool
  institution_id : Option Nat
  investor_id : Option Nat
deriving Repr, DecidableEq

/-- The per-row formatting step of `Messages.loadConversations`:
`isInstitution` compares the embedded institution's `user_id` with the
current user; `company_name || 'Investor'` falls back on the literal. -/
def formatConv (uid : Nat) (c : RawConv) : FormattedConv :=
  let isInstitution := c.inst_user_id == uid
  { id := c.id
    other_party_name :=
      if isInstitution then c.inv_company.getD "Investor" else c.inst_name
    other_party_type := if isInstitution then "investor" else "institution"
    updated_at := c.updated_at
    is_online := false
    institution_id := none
    investor_id := none }

/-- `Messages.loadConversations`: on a backend error it raises one
destructive toast and returns, leaving `conversations` untouched; on success
it replaces `conversations` with the formatted rows and raises no toast. -/
def loadConversations (uid : Nat) (conversations : List FormattedConv)
    (resp : Except String (List RawConv)) :
    List FormattedConv × List ToastMsg :=
  match resp with
  | Except.error e =>
      (conversations,
        [{ title := "Error loading conversations", description := e,
           variant := "destructive" }])
  | Except.ok data => (data.map (formatConv uid), [])

/-- JavaScript `String.prototype.trim`, embedded structurally: drop
whitespace characters from both ends of the string. -/
def jsTrim (s : String) : String :=
  String.mk
    (((s.data.dropWhile Char.isWhitespace).reverse.dropWhile
        Char.isWhitespace).reverse)

/-- `Messages.handleSendMessage`: returns the new `newMessage` draft value
and the toasts raised.  The guard mirrors
`if (!newMessage.trim() || !selectedConversationId || !currentUserId) return`
(the emptiness test of the trimmed draft is `jsTrim _ == ""`);
the single insert's outcome is `insertResult`; on error one destructive toast
is raised and the draft is kept; only on success is the draft cleared. -/
def handleSendMessage (newMessage : String) (selectedConversationId : Option Nat)
    (currentUserId : Option Nat) (insertResult : Except String Unit) :
    String × List ToastMsg :=
  if jsTrim newMessage == "" || selectedConversationId.isNone
      || currentUserId.isNone then
    (newMessage, [])
  else
    match insertResult with
    | Except.error e =>
        (newMessage,
          [{ title := "Error sending message", description := e,
             variant := "destructive" }])
    | Except.ok _ => ("", [])

/-- The observable action a create-conversation handler ends in: either it
opens an already existing conversation, or it inserts a new
`conversations` row with the given investor and institution ids. -/
inductive ConvAction where
  | openExisting (convId : Nat)
  | insertConversationRow (investor_id institution_id : Nat)
deriving Repr, DecidableEq

/-- `Messages.handleCreateConversation` (after its non-empty guards): the
duplicate check runs `conversations.find(conv => conv.institution_id ===
selectedPartner)` (investor side, symmetrically for institutions) over the
formatted conversation list; when no match is found it inserts a new row
pairing the caller's own investor/institution id with the selected partner. -/
def handleCreateConversation (userType : String) (conversations : List FormattedConv)
    (selectedPartner : Nat) (ownInvestorId ownInstitutionId : Nat) : ConvAction :=
  match conversations.find? (fun conv =>
      if userType == "investor" then conv.institution_id == some selectedPartner
      else conv.investor_id == some selectedPartner) with
  | some c => ConvAction.openExisting c.id
  | none =>
      if userType == "investor" then
        ConvAction.insertConversationRow ownInvestorId selectedPartner
      else
        ConvAction.insertConversationRow selectedPartner ownInstitutionId

/-- The existence query of `InstitutionsList.handleContactInstitution`:
select a `conversations` row with this investor id and institution id. -/
def queryExistingConversation (convs : List Conversation)
    (investorId institutionId : Nat) : Option Nat :=
  (convs.find? (fun c =>
    c.investor_id == investorId && c.institution_id == institutionId)).map
    (fun c => c.id)

/-- `InstitutionsList.handleContactInstitution` (after resolving the caller's
investor row): when the database query finds an existing conversation it
navigates to it, otherwise it inserts a new conversation row. -/
def handleContactInstitution (convs : List Conversation)
    (investorId institutionId : Nat) : ConvAction :=
  match queryExistingConversation convs investorId institutionId with
  | some cid => ConvAction.openExisting cid
  | none => ConvAction.insertConversationRow investorId institutionId

/-- Conversation row shape used by `InstitutionAnalytics` (its `investor_id`
is declared nullable there). -/
structure AnalyticsConv where
  id : Nat
  investor_id : Option Nat
  institution_id : Nat
  created_at : Nat
deriving Repr, DecidableEq

/-- Message row shape used by `InstitutionAnalytics`. -/
structure AnalyticsMsg where
  id : Nat
  conversation_id : Nat
  created_at : Nat
  read : Bool
deriving Repr, DecidableEq

/-- JavaScript `Math.round`: round half toward positive infinity. -/
def jsRound (q : Rat) : Int :=
  Int.floor (q + (1 : Rat) / 2)

/-- `InstitutionAnalytics.metrics`: `new Set(conversations.map(c =>
c.investor_id).filter(Boolean)).size`. -/
def analyticsActiveInvestors (convs : List AnalyticsConv) : Nat :=
  ((convs.filterMap (fun c => c.investor_id)).eraseDups).length

/-- `InstitutionAnalytics.metrics`: `messages.filter(m => !m.read).length`. -/
def analyticsUnreadMessages (msgs : List AnalyticsMsg) : Nat :=
  (msgs.filter (fun m => !m.read)).length

/-- `InstitutionAnalytics.metrics`: `totalConversations ? totalMessages /
totalConversations : 0`. -/
def avgMessagesPerConversation (convs : List AnalyticsConv)
    (msgs : List AnalyticsMsg) : Rat :=
  if convs.length = 0 then 0
  else (msgs.length : Rat) / (convs.length : Rat)

/-- `InstitutionAnalytics.metrics` engagement score: the blend
`activeInvestors*5 + avgMessagesPerConversation*10 + totalConversations*2 -
unreadMessages` is rounded, clamped above through `Math.min(100, _)` when the
local constant is computed, and clamped below through `Math.max(0, _)` when
the returned record is built. -/
def engagementScore (convs : List AnalyticsConv) (msgs : List AnalyticsMsg) : Int :=
  max 0 (min 100 (jsRound
    ((analyticsActiveInvestors convs : Rat) * 5
      + avgMessagesPerConversation convs msgs * 10
      + (convs.length : Rat) * 2
      - (analyticsUnreadMessages msgs : Rat))))

/-- Donation row shape as consumed by `InstitutionReports.processReportData`:
the code reads `d.amount || 0` defensively and `d.donor_id` (a property the
`donations` table does not have); possibly-absent properties are embedded as
`Option` fields. -/
structure RDonation where
  id : Nat
  amount : Option Rat
  donor_id : Option Nat
deriving Repr, DecidableEq

/-- The scalar KPI fields of the `ReportData` record built by
`InstitutionReports.processReportData` (the month-bucketed trend arrays,
which depend on the current date, are not needed by any claim and are not
embedded). -/
structure Report where
  totalDonations : Nat
  totalAmount : Rat
  averageDonation : Rat
  activeDonors : Nat
  conversionRate : Rat
deriving Repr, DecidableEq

/-- `InstitutionReports.processReportData` scalar KPIs: `totalAmount` sums
`d.amount || 0`; `averageDonation` divides only when `totalDonations > 0`;
`conversionRate` divides only when `conversations.length > 0`. -/
def processReportData (donations : List RDonation)
    (conversations : List Conversation) : Report :=
  let totalDonations := donations.length
  let totalAmount := donations.foldl (fun s d => s + d.amount.getD 0) 0
  let averageDonation :=
    if totalDonations > 0 then totalAmount / (totalDonations : Rat) else 0
  let activeDonors := ((donations.map (fun d => d.donor_id)).eraseDups).length
  let conversionRate :=
    if conversations.length > 0 then
      ((totalDonations : Rat) / (conversations.length : Rat)) * 100
    else 0
  { totalDonations := totalDonations
    totalAmount := totalAmount
    averageDonation := averageDonation
    activeDonors := activeDonors
    conversionRate := conversionRate }

/-- One policy-permitted mutation of the database state.  Each constructor
carries the RLS policy of the statement it models together with the table's
CHECK, PRIMARY KEY, UNIQUE and FOREIGN KEY constraints (the conversation
insert uses the policy's clause over unfiltered tables,
`conversations_insert_policy`, an upper bound on the program's grant that
only enlarges the reachable set and is therefore conservative for the
invariants proved below); tables with no
DELETE policy (everything except `donations`) admit no delete step, and
row updates keep the primary key (the clients never change ids, and a
referenced id cannot change under the default NO ACTION foreign keys). -/
inductive Step : DB → DB → Prop where
  | insertProfile (db : DB) (uid : Nat) (p : Profile)
      (hpol : (uid == p.id) = true)
      (hck : profile_row_ok p = true)
      (hpk : db.profiles.all (fun q => q.id != p.id) = true) :
      Step db { db with profiles := p :: db.profiles }
  | updateProfile (db : DB) (uid : Nat) (old p2 : Profile)
      (hmem : old ∈ db.profiles)
      (hpol : profiles_update_policy db uid old = true)
      (hid : p2.id = old.id)
      (hck : profile_row_ok p2 = true) :
      Step db { db with
        profiles := db.profiles.map (fun q => if q = old then p2 else q) }
  | insertInstitution (db : DB) (uid : Nat) (i : Institution)
      (hpol : (uid == i.user_id) = true)
      (hfk : profile_exists db i.user_id = true)
      (hpk : db.institutions.all (fun r => r.id != i.id) = true)
      (huniq : db.institutions.all (fun r => r.user_id != i.user_id) = true) :
      Step db { db with institutions := i :: db.institutions }
  | updateInstitution (db : DB) (uid : Nat) (old i2 : Institution)
      (hmem : old ∈ db.institutions)
      (hpol : ((uid == old.user_id) || has_role db uid "admin") = true)
      (hid : i2.id = old.id)
      (hfk : profile_exists db i2.user_id = true) :
      Step db { db with
        institutions := db.institutions.map (fun q => if q = old then i2 else q) }
  | insertInvestor (db : DB) (uid : Nat) (inv : Investor)
      (hpol : (uid == inv.user_id) = true)
      (hfk : profile_exists db inv.user_id = true)
      (hpk : db.investors.all (fun r => r.id != inv.id) = true)
      (huniq : db.investors.all (fun r => r.user_id != inv.user_id) = true) :
      Step db { db with investors := inv :: db.investors }
  | updateInvestor (db : DB) (uid : Nat) (old inv2 : Investor)
      (hmem : old ∈ db.investors)
      (hpol : ((uid == old.user_id) || has_role db uid "admin") = true)
      (hid : inv2.id = old.id)
      (hfk : profile_exists db inv2.user_id = true) :
      Step db { db with
        investors := db.investors.map (fun q => if q = old then inv2 else q) }
  | insertConversation (db : DB) (uid : Nat) (c : Conversation)
      (hpol : conversations_insert_policy db uid c.institution_id c.investor_id = true)
      (hfk1 : institution_exists db c.institution_id = true)
      (hfk2 : investor_exists db c.investor_id = true)
      (huniq : conv_pair_free db c.institution_id c.investor_id = true)
      (hpk : db.conversations.all (fun r => r.id != c.id) = true) :
      Step db { db with conversations := c :: db.conversations }
  | insertMessage (db : DB) (uid : Nat) (m : Message) (now : Nat)
      (hpol : messages_insert_policy db uid m = true)
      (hfk1 : conversation_exists db m.conversation_id = true)
      (hfk2 : profile_exists db m.sender_id = true)
      (hpk : db.messages.all (fun r => r.id != m.id) = true) :
      Step db { db with
        messages := m :: db.messages,
        conversations :=
          update_conversation_timestamp db.conversations m.conversation_id now }
  | updateMessage (db : DB) (uid : Nat) (old m2 : Message)
      (hmem : old ∈ db.messages)
      (hpol : messages_update_policy db uid old = true)
      (hid : m2.id = old.id)
      (hfk1 : conversation_exists db m2.conversation_id = true)
      (hfk2 : profile_exists db m2.sender_id = true) :
      Step db { db with
        messages := db.messages.map (fun q => if q = old then m2 else q) }
  | insertDonation (db : DB) (uid : Nat) (d : Donation)
      (hpol : donations_insert_policy db uid d = true)
      (hck : donation_checks d = true)
      (hfk1 : investor_exists db d.investor_id = true)
      (hfk2 : institution_exists db d.institution_id = true)
      (hpk : db.donations.all (fun r => r.id != d.id) = true) :
      Step db { db with donations := d :: db.donations }
  | updateDonation (db : DB) (uid : Nat) (old d2 : Donation)
      (hmem : old ∈ db.donations)
      (hpol : has_role db uid "admin" = true)
      (hid : d2.id = old.id)
      (hck : donation_checks d2 = true)
      (hfk1 : investor_exists db d2.investor_id = true)
      (hfk2 : institution_exists db d2.institution_id = true) :
      Step db { db with
        donations := db.donations.map (fun q => if q = old then d2 else q) }
  | deleteDonation (db : DB) (uid : Nat) (old : Donation)
      (hmem : old ∈ db.donations)
      (hpol : has_role db uid "admin" = true) :
      Step db { db with donations := db.donations.filter (fun q => !(q == old)) }
  | insertUserRole (db : DB) (uid : Nat) (r : UserRole)
      (hpol : has_role db uid "admin" = true)
      (hck : (r.role == "admin" || r.role == "institution"
          || r.role == "investor") = true)
      (huniq : db.user_roles.all
          (fun q => !(q.user_id == r.user_id && q.role == r.role)) = true) :
      Step db { db with user_roles := r :: db.user_roles }

/-- The state right after the migrations run: every table is empty. -/
def DB.init : DB :=
  { profiles := [], institutions := [], investors := [], conversations := []
    messages := [], donations := [], user_roles := [] }

/-- A database state reachable from the freshly migrated state through
policy-permitted operations. -/
def Reachable (db : DB) : Prop :=
  Relation.ReflTransGen Step DB.init db

/-- No two conversation rows share the `(institution_id, investor_id)` pair. -/
def conv_pairs_unique (l : List Conversation) : Prop :=
  l.Pairwise (fun a b =>
    ¬(a.institution_id = b.institution_id ∧ a.investor_id = b.investor_id))

/-- The conversations-table invariant: pair uniqueness plus referential
integrity of the two non-null foreign keys. -/
def conv_invariant (db : DB) : Prop :=
  conv_pairs_unique db.conversations
    ∧ ∀ c ∈ db.conversations,
        institution_exists db c.institution_id = true
          ∧ investor_exists db c.investor_id = true

/-- The donations-table invariant: positive amount, status in the checked
enumeration, and referential integrity of both foreign keys. -/
def donations_invariant (db : DB) : Prop :=
  ∀ d ∈ db.donations,
    0 < d.amount
      ∧ d.status ∈ (["pending", "completed", "cancelled", "failed"] : List String)
      ∧ investor_exists db d.investor_id = true
      ∧ institution_exists db d.institution_id = true

/-- Conjunction of the table invariants preserved by every step. -/
def all_invariants (db : DB) : Prop :=
  conv_invariant db ∧ donations_invariant db

/-- Spec-level reading of the conversation INSERT policy: there are an
institution row with the target institution id and an investor row with the
target investor id, their owning profiles are both verified, and the caller
is one of those two profiles. -/
def conv_insert_allowed_spec (db : DB) (uid inst_id inv_id : Nat) : Prop :=
  ∃ p1 ∈ db.profiles, ∃ i ∈ db.institutions, ∃ p2 ∈ db.profiles,
    ∃ inv ∈ db.investors,
      p1.id = i.user_id ∧ p2.id = inv.user_id
        ∧ i.id = inst_id ∧ inv.id = inv_id
        ∧ p1.verification_status = "verified"
        ∧ p2.verification_status = "verified"
        ∧ (p1.id = uid ∨ p2.id = uid)

/-- Spec-level reading of membership on the institution side of a
conversation: the caller owns the institution of the conversation and is
verified. -/
def institution_participant_spec (db : DB) (uid conv_id : Nat) : Prop :=
  ∃ c ∈ db.conversations, c.id = conv_id
    ∧ ∃ i ∈ db.institutions, c.institution_id = i.id
      ∧ ∃ p ∈ db.profiles, i.user_id = p.id ∧ p.id = uid
        ∧ p.verification_status = "verified"

/-- Spec-level reading of membership on the investor side of a
conversation: the caller owns the investor of the conversation and is
verified. -/
def investor_participant_spec (db : DB) (uid conv_id : Nat) : Prop :=
  ∃ c ∈ db.conversations, c.id = conv_id
    ∧ ∃ inv ∈ db.investors, c.investor_id = inv.id
      ∧ ∃ p ∈ db.profiles, inv.user_id = p.id ∧ p.id = uid
        ∧ p.verification_status = "verified"

/-- Spec-level reading of the message INSERT policy's participation part:
the caller is a verified participant of the conversation, on the
institution side or on the investor side. -/
def verified_participant_spec (db : DB) (uid conv_id : Nat) : Prop :=
  institution_participant_spec db uid conv_id
    ∨ investor_participant_spec db uid conv_id

/-- Example verified institution-account profile. -/
def exProfileInst : Profile :=
  { id := 1, email := "inst@example.com", user_type := "institution"
    verification_status := "verified" }

/-- Example verified investor-account profile. -/
def exProfileInv : Profile :=
  { id := 2, email := "inv@example.com", user_type := "investor"
    verification_status := "verified" }

/-- Example institution row owned by profile 1. -/
def exInstitution : Institution := { id := 5, user_id := 1 }

/-- Example investor row owned by profile 2. -/
def exInvestor : Investor := { id := 7, user_id := 2 }

/-- Example conversation pairing the institution and the investor. -/
def exConversation : Conversation :=
  { id := 10, institution_id := 5, investor_id := 7, created_at := 0
    updated_at := 0 }

/-- Example donation from the investor to the institution. -/
def exDonation : Donation :=
  { id := 20, investor_id := 7, institution_id := 5, amount := 50
    currency := "USD", status := "pending" }

/-- State after profile 1 signs up. -/
def exDb1 : DB := { DB.init with profiles := [exProfileInst] }

/-- State after profile 2 signs up. -/
def exDb2 : DB := { exDb1 with profiles := exProfileInv :: exDb1.profiles }

/-- State after the institution row is registered. -/
def exDb3 : DB := { exDb2 with institutions := exInstitution :: exDb2.institutions }

/-- State after the investor row is registered. -/
def exDb4 : DB := { exDb3 with investors := exInvestor :: exDb3.investors }

/-- State after the conversation is created. -/
def exDb5 : DB := { exDb4 with conversations := exConversation :: exDb4.conversations }

/-- State after the donation is created. -/
def exDb6 : DB := { exDb5 with donations := exDonation :: exDb5.donations }

/-- A profile still pending verification, used to exercise the profiles
UPDATE policy. -/
def exProfilePending : Profile :=
  { id := 1, email := "user@example.com", user_type := "investor"
    verification_status := "pending" }

/-- The same profile after its owner rewrites the verification status. -/
def exProfileSelfVerified : Profile :=
  { exProfilePending with verification_status := "verified" }

/-- State holding only the pending profile. -/
def exDbPending : DB := { DB.init with profiles := [exProfilePending] }

/-- State after the owner's own UPDATE statement flips the status. -/
def exDbSelfVerified : DB :=
  { exDbPending with
    profiles := exDbPending.profiles.map
      (fun q => if q = exProfilePending then exProfileSelfVerified else q) }

/-- Example message sent by profile 1 in the conversation. -/
def exMessage : Message :=
  { id := 30, conversation_id := 10, sender_id := 1, content := "hello"
    read := false, created_at := 6 }

/-- A freshly signed-up investor profile still pending verification, used as
the caller in the unverified-reader scenario. -/
def exProfileUnverifiedInvestor : Profile :=
  { id := 3, email := "new@example.com", user_type := "investor"
    verification_status := "pending" }

/-- The conversation state of `exDb5` with one extra unverified investor
profile: the conversation there belongs to two other verified users. -/
def exDbC4 : DB :=
  { exDb5 with profiles := exProfileUnverifiedInvestor :: exDb5.profiles }

/-- Raw row of the `Messages.loadConversations` select for the conversation
between institution 5 (owned by profile 2) and investor 7 (owned by the
current user, profile 1). -/
def exRawConv : RawConv :=
  { id := 10, updated_at := 0, inst_id := 5
    inst_name := "Bright Future Academy", inst_user_id := 2, inv_id := 7
    inv_company := none, inv_type := "individual", inv_user_id := 1 }

/-- Example donation row shape consumed by `processReportData`. -/
def exRDonation : RDonation := { id := 1, amount := some 10, donor_id := none }


lemma any_cons_of_any {α : Type} (p : α → Bool) (x : α) {l : List α}
    (h : l.any p = true) : (x :: l).any p = true := by
  simp [List.any_cons, h]

lemma any_replace_eq {α : Type} [DecidableEq α] (p : α → Bool) (old new : α)
    (hp : p new = p old) (l : List α) :
    (l.map (fun q => if q = old then new else q)).any p = l.any p := by
  induction l with
  | nil => rfl
  | cons x t ih =>
      simp only [List.map_cons, List.any_cons, ih]
      by_cases hx : x = old
      · rw [if_pos hx, hp, hx]
      · rw [if_neg hx]

lemma uct_institution_id (c : Conversation) (cid now : Nat) :
    (if c.id = cid then { c with updated_at := now } else c).institution_id
      = c.institution_id := by
  split <;> rfl

lemma uct_investor_id (c : Conversation) (cid now : Nat) :
    (if c.id = cid then { c with updated_at := now } else c).investor_id
      = c.investor_id := by
  split <;> rfl

lemma uct_pairs_unique {l : List Conversation} {cid now : Nat}
    (h : conv_pairs_unique l) :
    conv_pairs_unique (update_conversation_timestamp l cid now) := by
  show (l.map _).Pairwise _
  rw [List.pairwise_map]
  exact h.imp fun hab hcontra =>
    hab (by simpa [uct_institution_id, uct_investor_id] using hcontra)

lemma uct_mem {l : List Conversation} {cid now : Nat} {c2 : Conversation}
    (h : c2 ∈ update_conversation_timestamp l cid now) :
    ∃ c ∈ l, c2.institution_id = c.institution_id
      ∧ c2.investor_id = c.investor_id := by
  rcases List.mem_map.mp h with ⟨c, hc, hceq⟩
  exact ⟨c, hc, by rw [← hceq, uct_institution_id],
    by rw [← hceq, uct_investor_id]⟩

lemma donation_checks_spec {d : Donation} (h : donation_checks d = true) :
    0 < d.amount
      ∧ d.status ∈ (["pending", "completed", "cancelled", "failed"] : List String) := by
  simp only [donation_checks, Bool.and_eq_true, Bool.or_eq_true, beq_iff_eq,
    decide_eq_true_eq] at h
  rcases h with ⟨h1, h2⟩
  refine ⟨h1, ?_⟩
  rcases h2 with ((h | h) | h) | h <;> simp [h]

lemma step_preserves_invariants {a b : DB} (hs : Step a b)
    (h : all_invariants a) : all_invariants b := by
  obtain ⟨⟨hpair, hrefs⟩, hdon⟩ := h
  cases hs with
  | insertProfile uid p hpol hck hpk =>
      exact ⟨⟨hpair, hrefs⟩, hdon⟩
  | updateProfile uid old p2 hmem hpol hid hck =>
      exact ⟨⟨hpair, hrefs⟩, hdon⟩
  | insertInstitution uid i hpol hfk hpk huniq =>
      refine ⟨⟨hpair, fun c hc => ?_⟩, fun d hd => ?_⟩
      · obtain ⟨h1, h2⟩ := hrefs c hc
        exact ⟨any_cons_of_any _ i h1, h2⟩
      · obtain ⟨h1, h2, h3, h4⟩ := hdon d hd
        exact ⟨h1, h2, h3, any_cons_of_any _ i h4⟩
  | updateInstitution uid old i2 hmem hpol hid hfk =>
      refine ⟨⟨hpair, fun c hc => ?_⟩, fun d hd => ?_⟩
      · obtain ⟨h1, h2⟩ := hrefs c hc
        refine ⟨?_, h2⟩
        show (a.institutions.map _).any _ = true
        rw [any_replace_eq _ old i2 (by rw [hid])]
        exact h1
      · obtain ⟨h1, h2, h3, h4⟩ := hdon d hd
        refine ⟨h1, h2, h3, ?_⟩
        show (a.institutions.map _).any _ = true
        rw [any_replace_eq _ old i2 (by rw [hid])]
        exact h4
  | insertInvestor uid inv hpol hfk hpk huniq =>
      refine ⟨⟨hpair, fun c hc => ?_⟩, fun d hd => ?_⟩
      · obtain ⟨h1, h2⟩ := hrefs c hc
        exact ⟨h1, any_cons_of_any _ inv h2⟩
      · obtain ⟨h1, h2, h3, h4⟩ := hdon d hd
        exact ⟨h1, h2, any_cons_of_any _ inv h3, h4⟩
  | updateInvestor uid old inv2 hmem hpol hid hfk =>
      refine ⟨⟨hpair, fun c hc => ?_⟩, fun d hd => ?_⟩
      · obtain ⟨h1, h2⟩ := hrefs c hc
        refine ⟨h1, ?_⟩
        show (a.investors.map _).any _ = true
        rw [any_replace_eq _ old inv2 (by rw [hid])]
        exact h2
      · obtain ⟨h1, h2, h3, h4⟩ := hdon d hd
        refine ⟨h1, h2, ?_, h4⟩
        show (a.investors.map _).any _ = true
        rw [any_replace_eq _ old inv2 (by rw [hid])]
        exact h3
  | insertConversation uid c hpol hfk1 hfk2 huniq hpk =>
      refine ⟨⟨?_, fun c2 hc2 => ?_⟩, fun d hd => hdon d hd⟩
      · simp only [conv_pair_free, Bool.not_eq_eq_eq_not, Bool.not_true,
          List.any_eq_false, Bool.and_eq_true, beq_iff_eq, not_and] at huniq
        refine List.Pairwise.cons ?_ hpair
        intro b hb hcontra
        exact huniq b hb hcontra.1.symm hcontra.2.symm
      · rcases List.mem_cons.mp hc2 with he | hc2
        · subst he
          exact ⟨hfk1, hfk2⟩
        · exact hrefs c2 hc2
  | insertMessage uid m now hpol hfk1 hfk2 hpk =>
      refine ⟨⟨uct_pairs_unique hpair, fun c2 hc2 => ?_⟩, fun d hd => hdon d hd⟩
      rcases uct_mem hc2 with ⟨c, hc, e1, e2⟩
      obtain ⟨h1, h2⟩ := hrefs c hc
      exact ⟨by rw [e1]; exact h1, by rw [e2]; exact h2⟩
  | updateMessage uid old m2 hmem hpol hid hfk1 hfk2 =>
      exact ⟨⟨hpair, hrefs⟩, hdon⟩
  | insertDonation uid d hpol hck hfk1 hfk2 hpk =>
      refine ⟨⟨hpair, fun c hc => hrefs c hc⟩, fun d2 hd2 => ?_⟩
      rcases List.mem_cons.mp hd2 with he | hd2
      · subst he
        rcases donation_checks_spec hck with ⟨ha, hb⟩
        exact ⟨ha, hb, hfk1, hfk2⟩
      · exact hdon d2 hd2
  | updateDonation uid old d2 hmem hpol hid hck hfk1 hfk2 =>
      refine ⟨⟨hpair, fun c hc => hrefs c hc⟩, fun x hx => ?_⟩
      rcases List.mem_map.mp hx with ⟨ad, had, hade⟩
      by_cases hcase : ad = old
      · rw [if_pos hcase] at hade
        subst hade
        rcases donation_checks_spec hck with ⟨ha, hb⟩
        exact ⟨ha, hb, hfk1, hfk2⟩
      · rw [if_neg hcase] at hade
        subst hade
        exact hdon ad had
  | deleteDonation uid old hmem hpol =>
      refine ⟨⟨hpair, fun c hc => hrefs c hc⟩, fun x hx => ?_⟩
      exact hdon x (List.mem_filter.mp hx).1
  | insertUserRole uid r hpol hck huniq =>
      exact ⟨⟨hpair, hrefs⟩, hdon⟩

lemma reachable_invariants (db : DB) (h : Reachable db) : all_invariants db := by
  induction h with
  | refl =>
      exact ⟨⟨List.Pairwise.nil, fun c hc => (List.not_mem_nil c hc).elim⟩,
        fun d hd => (List.not_mem_nil d hd).elim⟩
  | tail h1 h2 ih => exact step_preserves_invariants h2 ih


lemma reachable_exDb6 : Reachable exDb6 := by
  have s1 : Step DB.init exDb1 :=
    Step.insertProfile DB.init 1 exProfileInst rfl rfl rfl
  have s2 : Step exDb1 exDb2 :=
    Step.insertProfile exDb1 2 exProfileInv rfl rfl rfl
  have s3 : Step exDb2 exDb3 :=
    Step.insertInstitution exDb2 1 exInstitution rfl rfl rfl rfl
  have s4 : Step exDb3 exDb4 :=
    Step.insertInvestor exDb3 2 exInvestor rfl rfl rfl rfl
  have s5 : Step exDb4 exDb5 :=
    Step.insertConversation exDb4 1 exConversation rfl rfl rfl rfl rfl
  have s6 : Step exDb5 exDb6 :=
    Step.insertDonation exDb5 2 exDonation rfl (by decide) rfl rfl rfl
  exact Relation.ReflTransGen.tail
    (Relation.ReflTransGen.tail
      (Relation.ReflTransGen.tail
        (Relation.ReflTransGen.tail
          (Relation.ReflTransGen.tail
            (Relation.ReflTransGen.tail Relation.ReflTransGen.refl s1) s2) s3)
        s4) s5) s6


lemma is_institution_in_conversation_spec (db : DB) (uid conv_id : Nat) :
    is_institution_in_conversation db uid conv_id = true
      ↔ institution_participant_spec db uid conv_id := by
  simp [is_institution_in_conversation, institution_participant_spec,
    List.any_eq_true, Bool.and_eq_true, beq_iff_eq, and_assoc]

lemma is_investor_in_conversation_spec (db : DB) (uid conv_id : Nat) :
    is_investor_in_conversation db uid conv_id = true
      ↔ investor_participant_spec db uid conv_id := by
  simp [is_investor_in_conversation, investor_participant_spec,
    List.any_eq_true, Bool.and_eq_true, beq_iff_eq, and_assoc]

lemma rls_policy_le_clause (db : DB) (uid inst_id inv_id : Nat)
    (h : conversations_insert_policy_rls db uid inst_id inv_id = true) :
    conversations_insert_policy db uid inst_id inv_id = true := by
  simp only [conversations_insert_policy_rls, List.any_eq_true] at h
  obtain ⟨p1, hp1, i, hi, p2, hp2, inv, hinv, hcond⟩ := h
  simp only [conversations_insert_policy, List.any_eq_true]
  exact ⟨p1, (List.mem_filter.mp hp1).1, i, (List.mem_filter.mp hi).1,
    p2, (List.mem_filter.mp hp2).1, inv, (List.mem_filter.mp hinv).1, hcond⟩

/-- C3 evaluated at its failing input: with verified profile 1 owning
institution 5, verified profile 2 owning investor 7, and caller 2 (the
investor's owner, not an admin), the claim's conditions hold — the policy
clause over the full tables is even true — yet the policy as the program
evaluates it is false, because the caller's row-level visibility of
`profiles` hides the institution owner's row, and the insert is rejected. -/
theorem conversation_insert_rejected_for_verified_investor :
    conv_insert_allowed_spec exDb4 2 5 7
      ∧ conversations_insert_policy exDb4 2 5 7 = true
      ∧ has_role exDb4 2 "admin" = false
      ∧ conversations_insert_policy_rls exDb4 2 5 7 = false
      ∧ tryInsertConversation exDb4 2 exConversation = none :=
  ⟨by unfold conv_insert_allowed_spec; decide, rfl, rfl, rfl, rfl⟩

/-- C4: when every profile of the caller is unverified, the conversation
SELECT policy evaluates to false on every conversation row, so the caller
can read no conversation at all. -/
theorem unverified_caller_reads_no_conversation :
    ∀ (db : DB) (uid : Nat),
      (∀ p ∈ db.profiles, p.id = uid → p.verification_status ≠ "verified") →
      ∀ c ∈ db.conversations, conversations_select_policy db uid c = false := by
  intro db uid hunv c hc
  rw [conversations_select_policy, Bool.or_eq_false_iff]
  constructor
  · rw [← Bool.not_eq_true, is_institution_in_conversation_spec]
    rintro ⟨c2, hc2, hcid, i, hi, hinst, p, hp, hup, hpid, hver⟩
    exact hunv p hp hpid hver
  · rw [← Bool.not_eq_true, is_investor_in_conversation_spec]
    rintro ⟨c2, hc2, hcid, inv, hinv, hiid, p, hp, hup, hpid, hver⟩
    exact hunv p hp hpid hver

/-- Closed instance of the C4 theorem: the unverified investor profile 3
cannot read the conversation between verified profiles 1 and 2. -/
theorem unverified_caller_reads_no_conversation_witness :
    conversations_select_policy exDbC4 3 exConversation = false :=
  unverified_caller_reads_no_conversation exDbC4 3 (by decide) exConversation
    (by decide)

/-- C1 evaluated at its failing input: the policy-permitted step in which
the non-admin owner of profile 1 (no admin role row, `user_type` investor)
updates their own profile row and thereby flips `verification_status` from
pending to verified — the self-update policy does not restrict columns, so
an admin is not the only writer of `verification_status`. -/
theorem self_update_changes_verification_status :
    Step exDbPending exDbSelfVerified
      ∧ has_role exDbPending 1 "admin" = false
      ∧ exDbPending.profiles.map Profile.verification_status = ["pending"]
      ∧ exDbSelfVerified.profiles.map Profile.verification_status = ["verified"] := by
  refine ⟨Step.updateProfile exDbPending 1 exProfilePending exProfileSelfVerified
    ?_ ?_ ?_ ?_, ?_, ?_, ?_⟩
  · decide
  · rfl
  · rfl
  · rfl
  · rfl
  · rfl
  · decide

/-- C2: in every database state reachable through the policy-permitted
operations, no two conversations share the `(institution_id, investor_id)`
pair, and each conversation's two non-null foreign keys reference an
existing institution and an existing investor. -/
theorem conversations_unique_pair_invariant :
    ∀ db : DB, Reachable db →
      conv_pairs_unique db.conversations
        ∧ ∀ c ∈ db.conversations,
            institution_exists db c.institution_id = true
              ∧ investor_exists db c.investor_id = true :=
  fun db h => (reachable_invariants db h).1

/-- Closed instance of the C2 theorem at a reachable state holding one
conversation created by verified users. -/
theorem conversations_unique_pair_invariant_witness :
    conv_pairs_unique exDb6.conversations
      ∧ ∀ c ∈ exDb6.conversations,
          institution_exists exDb6 c.institution_id = true
            ∧ investor_exists exDb6 c.investor_id = true :=
  conversations_unique_pair_invariant exDb6 reachable_exDb6

/-- C5: the AFTER INSERT trigger rewrites `updated_at` to the current time
on exactly the rows whose id is the new message's conversation id, keeps
every other field of those rows, and leaves every other row unchanged. -/
theorem update_conversation_timestamp_frame :
    ∀ (convs : List Conversation) (conv_id now : Nat),
      List.Forall₂ (fun c c2 =>
          c2.id = c.id ∧ c2.institution_id = c.institution_id
            ∧ c2.investor_id = c.investor_id ∧ c2.created_at = c.created_at
            ∧ (c.id = conv_id → c2.updated_at = now)
            ∧ (c.id ≠ conv_id → c2 = c))
        convs (update_conversation_timestamp convs conv_id now) := by
  intro convs conv_id now
  induction convs with
  | nil => exact List.Forall₂.nil
  | cons c t ih =>
      refine List.Forall₂.cons ?_ ih
      by_cases h : c.id = conv_id
      · simp [h]
      · simp [h]

/-- Closed instance of the C5 theorem at the example conversation and a
fresh timestamp. -/
theorem update_conversation_timestamp_frame_witness :
    List.Forall₂ (fun c c2 =>
        c2.id = c.id ∧ c2.institution_id = c.institution_id
          ∧ c2.investor_id = c.investor_id ∧ c2.created_at = c.created_at
          ∧ (c.id = 10 → c2.updated_at = 99)
          ∧ (c.id ≠ 10 → c2 = c))
      [exConversation] (update_conversation_timestamp [exConversation] 10 99) :=
  update_conversation_timestamp_frame [exConversation] 10 99

/-- C6: a backend error in `loadConversations` raises exactly one
destructive toast and keeps the previous conversation list; a backend error
in `handleSendMessage` raises exactly one destructive toast and keeps the
draft; the draft becomes empty exactly when the single insert succeeds.
Each handler consumes one backend response, so no retry is performed. -/
theorem messages_error_paths :
    (∀ (uid : Nat) (prev : List FormattedConv) (e : String),
        loadConversations uid prev (Except.error e)
          = (prev,
              [{ title := "Error loading conversations", description := e,
                 variant := "destructive" }]))
      ∧ (∀ (msg : String) (cid uid2 : Nat) (e : String),
          jsTrim msg ≠ "" →
            handleSendMessage msg (some cid) (some uid2) (Except.error e)
              = (msg,
                  [{ title := "Error sending message", description := e,
                     variant := "destructive" }]))
      ∧ (∀ (msg : String) (cid uid2 : Nat) (r : Except String Unit),
          jsTrim msg ≠ "" →
            ((handleSendMessage msg (some cid) (some uid2) r).1 = ""
              ↔ r = Except.ok ())) := by
  refine ⟨fun uid prev e => rfl, ?_, ?_⟩
  · intro msg cid uid2 e h
    simp [handleSendMessage, h]
  · intro msg cid uid2 r h
    have hmsg : msg ≠ "" := fun he => h (by rw [he]; rfl)
    cases r with
    | error e => simp [handleSendMessage, h, hmsg]
    | ok u => cases u; simp [handleSendMessage, h]

/-- Closed instance of the C6 theorem: a concrete failed send keeps the
draft and raises the single destructive toast. -/
theorem messages_error_paths_witness :
    handleSendMessage "hi" (some 3) (some 1) (Except.error "boom")
      = ("hi",
          [{ title := "Error sending message", description := "boom",
             variant := "destructive" }]) :=
  messages_error_paths.2.1 "hi" 3 1 "boom" (by decide)

/-- C7 evaluated at its failing input: the loaded list contains the
conversation with institution 5, yet `Messages.handleCreateConversation`
still emits an insert of a fresh conversation row, because its duplicate
check reads `institution_id` from formatted objects that do not carry that
property; `InstitutionsList.handleContactInstitution`, which queries the
database instead, correctly opens the existing conversation. -/
theorem handleCreateConversation_duplicate_check_ineffective :
    handleCreateConversation "investor" ([exRawConv].map (formatConv 1)) 5 7 0
        = ConvAction.insertConversationRow 7 5
      ∧ handleContactInstitution [exConversation] 7 5
        = ConvAction.openExisting 10 :=
  ⟨rfl, rfl⟩

/-- C8: in every database state reachable through the policy-permitted
operations, each donation row has a strictly positive amount, a status in
the checked enumeration, and foreign keys referencing an existing investor
and institution. -/
theorem donations_row_invariant :
    ∀ db : DB, Reachable db →
      ∀ d ∈ db.donations,
        0 < d.amount
          ∧ d.status ∈ (["pending", "completed", "cancelled", "failed"] : List String)
          ∧ investor_exists db d.investor_id = true
          ∧ institution_exists db d.institution_id = true :=
  fun db h => (reachable_invariants db h).2

/-- Closed instance of the C8 theorem at a reachable state holding one
donation created by the investor. -/
theorem donations_row_invariant_witness :
    0 < exDonation.amount
      ∧ exDonation.status ∈ (["pending", "completed", "cancelled", "failed"] : List String)
      ∧ investor_exists exDb6 exDonation.investor_id = true
      ∧ institution_exists exDb6 exDonation.institution_id = true :=
  donations_row_invariant exDb6 reachable_exDb6 exDonation (by decide)

/-- C9: for every input, the engagement score lies between 0 and 100
inclusive: `Math.min(100, _)` bounds it above and `Math.max(0, _)` bounds it
below, even when the unread count makes the blended formula negative. -/
theorem engagementScore_bounded :
    ∀ (convs : List AnalyticsConv) (msgs : List AnalyticsMsg),
      0 ≤ engagementScore convs msgs ∧ engagementScore convs msgs ≤ 100 := by
  intro convs msgs
  unfold engagementScore
  exact ⟨le_max_left 0 _, max_le (by norm_num) (min_le_left _ _)⟩

/-- C10: `processReportData` divides only behind non-emptiness guards:
empty donations give averageDonation 0, empty conversations give
conversionRate 0, and non-empty inputs give the quotient formulas. -/
theorem processReportData_division_guards :
    ∀ (ds : List RDonation) (cs : List Conversation),
      ((processReportData [] cs).averageDonation = 0)
        ∧ ((processReportData ds []).conversionRate = 0)
        ∧ (ds ≠ [] →
            (processReportData ds cs).averageDonation
              = (ds.foldl (fun s d => s + d.amount.getD 0) 0) / (ds.length : Rat))
        ∧ (cs ≠ [] →
            (processReportData ds cs).conversionRate
              = ((ds.length : Rat) / (cs.length : Rat)) * 100) := by
  intro ds cs
  refine ⟨rfl, ?_, ?_, ?_⟩
  · simp [processReportData]
  · intro h
    have hl : 0 < ds.length := List.length_pos.mpr h
    simp [processReportData, hl]
  · intro h
    have hl : 0 < cs.length := List.length_pos.mpr h
    simp [processReportData, hl]

/-- Closed instance of the C10 theorem on a one-donation, one-conversation
input. -/
theorem processReportData_division_guards_witness :
    (processReportData [exRDonation] [exConversation]).averageDonation
        = ([exRDonation].foldl (fun s d => s + d.amount.getD 0) 0)
            / (([exRDonation].length : Nat) : Rat)
      ∧ (processReportData [exRDonation] [exConversation]).conversionRate
        = ((([exRDonation].length : Nat) : Rat)
            / (([exConversation].length : Nat) : Rat)) * 100 :=
  ⟨(processReportData_division_guards [exRDonation] [exConversation]).2.2.1
      (List.cons_ne_nil _ _),
   (processReportData_division_guards [exRDonation] [exConversation]).2.2.2
      (List.cons_ne_nil _ _)⟩
